import Mathlib

/-!
GistFlow, the `MainWindow` constructor.

A shallow embedding of `src/qml/mainwindow.cpp`.  The constructor is straight-line
code over toolkit objects, so it is embedded as explicit state passing:

* the toolkit's answers that the constructor cannot control (what `setupUi` put in
  the tab widget, whether `QFile::open` succeeds, what `QUiLoader::load` returns,
  the initial contents of every layout) are the fields of `Env`;
* the objects the constructor mutates (the single `QFile`, the tab widget, the
  items of the layouts) are the fields of `State`, together with a ghost `trace`
  of the toolkit calls issued so far and a ghost list of file-misuse warnings;
* dereferencing a null pointer ends the run in `Outcome.crash`, which keeps the
  state reached at that point.
-/

namespace GistFlow

/-! ## Object trees -/

/-- The dynamic class of a toolkit object, as far as `qobject_cast` can tell. -/
inductive ObjKind where
  | widget
  | vboxLayout
  | hboxLayout
  | otherObject
deriving DecidableEq, Repr

/-- A toolkit object with its identity (the pointer), class, `objectName` and
children, in child order. -/
inductive QObj where
  | mk (id : Nat) (kind : ObjKind) (objectName : String) (children : List QObj)
deriving Repr

/-- The pointer identity of an object. -/
def QObj.id : QObj → Nat
  | .mk i _ _ _ => i

/-- The class of an object. -/
def QObj.kind : QObj → ObjKind
  | .mk _ k _ _ => k

/-- The `objectName` property. -/
def QObj.objectName : QObj → String
  | .mk _ _ n _ => n

/-- The direct children. -/
def QObj.children : QObj → List QObj
  | .mk _ _ _ cs => cs

/-- The test `findChild<T>(name)` applies to one candidate: the cast to `T`
succeeds and the object name is `name`. -/
def QObj.isMatch (kind : ObjKind) (name : String) (o : QObj) : Bool :=
  decide (o.kind = kind) && decide (o.objectName = name)

mutual
/-- The search behind `QObject::findChild` with `Qt::FindChildrenRecursively`: first the
direct children in order, then each child's subtree in order. -/
def findChildHelper (kind : ObjKind) (name : String) : QObj → Option QObj
  | .mk _ _ _ cs =>
    match cs.find? (QObj.isMatch kind name) with
    | some c => some c
    | none => findInChildren kind name cs
/-- The recursive pass of `findChildHelper` over a list of children. -/
def findInChildren (kind : ObjKind) (name : String) : List QObj → Option QObj
  | [] => none
  | c :: cs =>
    match findChildHelper kind name c with
    | some o => some o
    | none => findInChildren kind name cs
end

mutual
/-- All proper descendants of an object. -/
def descendants : QObj → List QObj
  | .mk _ _ _ cs => descendantsList cs
/-- The objects of a list of trees: every root and every descendant. -/
def descendantsList : List QObj → List QObj
  | [] => []
  | c :: cs => c :: (descendants c ++ descendantsList cs)
end

/-- The widget `h` has a descendant of class `kind` named `name`. -/
def HasDescendant (kind : ObjKind) (name : String) (h : QObj) : Prop :=
  ∃ d ∈ descendants h, d.isMatch kind name = true

/-! ## Files, calls and state -/

/-- The open modes of `QFile::open` the model distinguishes. -/
inductive OpenMode where
  | readOnly
  | writeOnly
  | readWrite
deriving DecidableEq, Repr

/-- The single `QFile` object of the constructor. -/
structure QFile where
  fileName : String
  isOpen : Bool
deriving DecidableEq, Repr

/-- A toolkit call issued by the constructor, with its arguments. -/
inductive Op where
  | qMainWindow (parent : Option Nat)
  | setupUi (window : Nat)
  | newLoader
  | newFile (name : String)
  | fileOpen (name : String) (mode : OpenMode)
  | load (name : String) (parent : Nat)
  | fileClose (name : String)
  | setFileName (name : String)
  | addTab (page : Option Nat) (label : String)
  | findChild (root : Nat) (kind : ObjKind) (name : String)
  | addWidget (layout : Nat) (widget : Option Nat)
deriving DecidableEq, Repr

/-- What the toolkit and the resource system answer; the constructor has no
control over any of it. -/
structure Env where
  /-- The tabs of `ui->tabWidget` when the generated `setupUi` returns. -/
  setupUiTabs : List (Nat × String)
  /-- Whether `QFile::open` on the named resource succeeds. -/
  openOk : String → OpenMode → Bool
  /-- What `QUiLoader::load` builds from the named device, open or not;
  `none` is the null pointer. -/
  loadUi : String → Bool → Option QObj
  /-- The items each layout holds before the constructor adds any. -/
  layoutItems : Nat → List Nat

/-- The state after `QMainWindow(parent)`, `setupUi` and the loader declaration,
before the file object exists. -/
structure UiState where
  tabs : List (Nat × String)
  items : Nat → List Nat
  trace : List Op

/-- The mutable state the constructor works on. -/
structure State where
  file : QFile
  tabs : List (Nat × String)
  items : Nat → List Nat
  warnings : List String
  trace : List Op

/-- Line 7 and line 10: the base-class constructor and `ui->setupUi(this)`. -/
def setupUi (env : Env) (self : Nat) (parent : Option Nat) : UiState :=
  { tabs := env.setupUiTabs
    items := env.layoutItems
    trace := [Op.qMainWindow parent, Op.setupUi self] }

/-- Line 11: `QUiLoader loader;`. -/
def newLoader (u : UiState) : UiState :=
  { u with trace := u.trace ++ [Op.newLoader] }

/-- Line 13: `QFile file(name);` creates the file object, closed. -/
def newFile (name : String) (u : UiState) : State :=
  { file := { fileName := name, isOpen := false }
    tabs := u.tabs
    items := u.items
    warnings := []
    trace := u.trace ++ [Op.newFile name] }

/-- The call `file.open(mode)`: on an open file it warns and fails, otherwise the
environment decides and the flag follows the result.  The result is returned
next to the new state. -/
def fileOpen (env : Env) (mode : OpenMode) (s : State) : Bool × State :=
  if s.file.isOpen then
    (false, { s with
      warnings := s.warnings ++ ["QFile::open: File already open"]
      trace := s.trace ++ [Op.fileOpen s.file.fileName mode] })
  else
    (env.openOk s.file.fileName mode, { s with
      file := { s.file with isOpen := env.openOk s.file.fileName mode }
      trace := s.trace ++ [Op.fileOpen s.file.fileName mode] })

/-- The call `loader.load(&file, parent)`: reads the device as it is. -/
def loaderLoad (env : Env) (parent : Nat) (s : State) : Option QObj × State :=
  (env.loadUi s.file.fileName s.file.isOpen,
    { s with trace := s.trace ++ [Op.load s.file.fileName parent] })

/-- The call `file.close()`: clears the flag; closing a closed file does nothing. -/
def fileClose (s : State) : State :=
  { s with
    file := { s.file with isOpen := false }
    trace := s.trace ++ [Op.fileClose s.file.fileName] }

/-- The call `file.setFileName(name)`: on an open file it warns and closes it first. -/
def setFileName (name : String) (s : State) : State :=
  if s.file.isOpen then
    { s with
      file := { fileName := name, isOpen := false }
      warnings := s.warnings ++ ["QFile::setFileName: File already opened"]
      trace := s.trace ++ [Op.setFileName name] }
  else
    { s with
      file := { fileName := name, isOpen := false }
      trace := s.trace ++ [Op.setFileName name] }

/-- The call `ui->tabWidget->addTab(page, label)`: appends a tab; a null page is
refused by the tab widget and nothing is added. -/
def addTab (page : Option QObj) (label : String) (s : State) : State :=
  match page with
  | none => { s with trace := s.trace ++ [Op.addTab none label] }
  | some w =>
    { s with
      tabs := s.tabs ++ [(w.id, label)]
      trace := s.trace ++ [Op.addTab (some w.id) label] }

/-- The call `layout->addWidget(w)` on a non-null layout: appends the widget to that
layout's items; a null widget is refused and nothing is added. -/
def addWidget (layout : QObj) (w : Option QObj) (s : State) : State :=
  match w with
  | none => { s with trace := s.trace ++ [Op.addWidget layout.id none] }
  | some g =>
    { s with
      items := fun k => if k = layout.id then s.items k ++ [g.id] else s.items k
      trace := s.trace ++ [Op.addWidget layout.id (some g.id)] }

/-! ## The constructor -/

/-- The locals and the state at line 27, after the three loads. -/
structure Loaded where
  settings : Option QObj
  header : Option QObj
  g : Option QObj
  st : State

/-- Lines 6 to 26 of `MainWindow::MainWindow`: set up the window and load the three
resources through the one file object.  No result of `open` is looked at. -/
def loadResources (env : Env) (self : Nat) (parent : Option Nat) : Loaded :=
  let u := setupUi env self parent
  let u := newLoader u
  let s := newFile ":/ui/settings.ui" u
  let s := (fileOpen env OpenMode.readOnly s).2
  let r := loaderLoad env self s
  let settings := r.1
  let s := fileClose r.2
  let s := setFileName ":/ui/tabheader.ui" s
  let s := (fileOpen env OpenMode.readOnly s).2
  let r := loaderLoad env self s
  let header := r.1
  let s := fileClose r.2
  let s := setFileName ":/ui/gist.ui" s
  let s := (fileOpen env OpenMode.readOnly s).2
  let r := loaderLoad env self s
  let g := r.1
  let s := fileClose r.2
  { settings := settings, header := header, g := g, st := s }

/-- Where a run can dereference a null pointer. -/
inductive CrashSite where
  | headerFindChild
  | layoutAddWidget
deriving DecidableEq, Repr

/-- How a run of the constructor ends. -/
inductive Outcome where
  | done (s : State)
  | crash (site : CrashSite) (s : State)

/-- Lines 28 to 31: register the header as the "Gist" tab, look the layout up in
it, add the gist widget to the layout, register the "Settings" tab.  Neither
`header` nor `layout` is checked before it is dereferenced. -/
def composeTabs (l : Loaded) : Outcome :=
  let s := addTab l.header "Gist" l.st
  match l.header with
  | none => Outcome.crash CrashSite.headerFindChild s
  | some h =>
    let s := { s with trace := s.trace ++ [Op.findChild h.id ObjKind.vboxLayout "mainLayout"] }
    match findChildHelper ObjKind.vboxLayout "mainLayout" h with
    | none => Outcome.crash CrashSite.layoutAddWidget s
    | some layout =>
      let s := addWidget layout l.g s
      Outcome.done (addTab l.settings "Settings" s)

/-- The constructor `MainWindow::MainWindow(QWidget *parent)` run on the window `self`. -/
def MainWindow (env : Env) (self : Nat) (parent : Option Nat) : Outcome :=
  composeTabs (loadResources env self parent)

/-- The state an outcome carries. -/
def Outcome.state : Outcome → State
  | .done s => s
  | .crash _ s => s

/-! ## Observations on traces -/

/-- The resources loaded, with the parent given to the loader, in call order. -/
def loadsOf : List Op → List (String × Nat)
  | [] => []
  | Op.load n p :: ops => (n, p) :: loadsOf ops
  | _ :: ops => loadsOf ops

/-- The resources opened, with the mode, in call order. -/
def opensOf : List Op → List (String × OpenMode)
  | [] => []
  | Op.fileOpen n m :: ops => (n, m) :: opensOf ops
  | _ :: ops => opensOf ops

/-- The `addTab` calls, in call order. -/
def addTabsOf : List Op → List (Option Nat × String)
  | [] => []
  | Op.addTab p l :: ops => (p, l) :: addTabsOf ops
  | _ :: ops => addTabsOf ops

/-- The open/close discipline on the calls made on the file object: `pending` says
that an `open` has not been closed yet.  `open` and `setFileName` are allowed only
with no open pending, `close` only with one pending, and none may be pending at
the end. -/
def balanced : Bool → List Op → Bool
  | pending, [] => !pending
  | pending, Op.fileOpen _ _ :: ops => !pending && balanced true ops
  | pending, Op.fileClose _ :: ops => pending && balanced false ops
  | pending, Op.setFileName _ :: ops => !pending && balanced false ops
  | pending, Op.newFile _ :: ops => !pending && balanced false ops
  | pending, _ :: ops => balanced pending ops

/-! ## Call sequences used in the statements -/

/-- The calls of lines 6 to 26, in order, on the window `self`. -/
def loadPhaseOps (self : Nat) (parent : Option Nat) : List Op :=
  [ Op.qMainWindow parent, Op.setupUi self, Op.newLoader,
    Op.newFile ":/ui/settings.ui",
    Op.fileOpen ":/ui/settings.ui" OpenMode.readOnly,
    Op.load ":/ui/settings.ui" self,
    Op.fileClose ":/ui/settings.ui",
    Op.setFileName ":/ui/tabheader.ui",
    Op.fileOpen ":/ui/tabheader.ui" OpenMode.readOnly,
    Op.load ":/ui/tabheader.ui" self,
    Op.fileClose ":/ui/tabheader.ui",
    Op.setFileName ":/ui/gist.ui",
    Op.fileOpen ":/ui/gist.ui" OpenMode.readOnly,
    Op.load ":/ui/gist.ui" self,
    Op.fileClose ":/ui/gist.ui" ]

/-- The calls of lines 28 to 31 that a run issues, read off the three loaded
widgets alone. -/
def composeOps (settings header g : Option QObj) : List Op :=
  match header with
  | none => [Op.addTab none "Gist"]
  | some h =>
    Op.addTab (some h.id) "Gist" :: Op.findChild h.id ObjKind.vboxLayout "mainLayout" ::
      (match findChildHelper ObjKind.vboxLayout "mainLayout" h with
       | none => []
       | some lay =>
         [Op.addWidget lay.id (g.map QObj.id), Op.addTab (settings.map QObj.id) "Settings"])

instance (kind : ObjKind) (name : String) (h : QObj) :
    Decidable (HasDescendant kind name h) := by
  unfold HasDescendant
  infer_instance

/-! ## Sample environments -/

/-- A tabheader widget as the designer would write it: a widget whose layout is a
vertical box named `mainLayout`. -/
def sampleHeader : QObj :=
  .mk 20 .widget "TabHeader" [.mk 21 .vboxLayout "mainLayout" [], .mk 22 .widget "toolbar" []]

/-- A tabheader widget whose only layout is horizontal. -/
def headerNoLayout : QObj :=
  .mk 20 .widget "TabHeader" [.mk 21 .hboxLayout "mainLayout" [], .mk 22 .widget "toolbar" []]

/-- The loader of the sample environments: each resource yields its widget when
the device is open. -/
def sampleLoad (header : QObj) (name : String) (isOpen : Bool) : Option QObj :=
  if !isOpen then none
  else if name = ":/ui/settings.ui" then some (.mk 10 .widget "Settings" [])
  else if name = ":/ui/tabheader.ui" then some header
  else if name = ":/ui/gist.ui" then some (.mk 30 .widget "Gist" [])
  else none

/-- Every resource opens, every load succeeds, the tab widget starts empty and the
layout 21 already holds the widget 22. -/
def sampleEnv : Env :=
  { setupUiTabs := []
    openOk := fun _ _ => true
    loadUi := sampleLoad sampleHeader
    layoutItems := fun k => if k = 21 then [22] else [] }

/-- As `sampleEnv`, with a tabheader resource that has no `mainLayout` vertical box. -/
def noLayoutEnv : Env :=
  { setupUiTabs := []
    openOk := fun _ _ => true
    loadUi := sampleLoad headerNoLayout
    layoutItems := fun _ => [] }

/-- As `noLayoutEnv`, with a tab widget that already holds one tab when `setupUi`
returns. -/
def preTabEnv : Env :=
  { setupUiTabs := [(5, "Pre")]
    openOk := fun _ _ => true
    loadUi := sampleLoad headerNoLayout
    layoutItems := fun _ => [] }

/-- An environment whose loader does not look at the device's open flag, with the
open results given by `ok`. -/
def lenientEnv (ok : String → OpenMode → Bool) : Env :=
  { setupUiTabs := []
    openOk := ok
    loadUi := fun name _ => sampleLoad sampleHeader name true
    layoutItems := fun _ => [] }

/-! ## The loading phase -/

theorem loadResources_st (env : Env) (self : Nat) (parent : Option Nat) :
    (loadResources env self parent).st =
      { file := { fileName := ":/ui/gist.ui", isOpen := false }
        tabs := env.setupUiTabs
        items := env.layoutItems
        warnings := []
        trace := loadPhaseOps self parent } := by
  simp [loadResources, setupUi, newLoader, newFile, fileOpen, loaderLoad, fileClose,
    setFileName, loadPhaseOps]

theorem loadResources_settings (env : Env) (self : Nat) (parent : Option Nat) :
    (loadResources env self parent).settings =
      env.loadUi ":/ui/settings.ui" (env.openOk ":/ui/settings.ui" OpenMode.readOnly) := by
  simp [loadResources, setupUi, newLoader, newFile, fileOpen, loaderLoad]

theorem loadResources_header (env : Env) (self : Nat) (parent : Option Nat) :
    (loadResources env self parent).header =
      env.loadUi ":/ui/tabheader.ui" (env.openOk ":/ui/tabheader.ui" OpenMode.readOnly) := by
  simp [loadResources, setupUi, newLoader, newFile, fileOpen, loaderLoad, fileClose,
    setFileName]

theorem loadResources_g (env : Env) (self : Nat) (parent : Option Nat) :
    (loadResources env self parent).g =
      env.loadUi ":/ui/gist.ui" (env.openOk ":/ui/gist.ui" OpenMode.readOnly) := by
  simp [loadResources, setupUi, newLoader, newFile, fileOpen, loaderLoad, fileClose,
    setFileName]


/-! ## The child lookup -/

mutual
theorem findChildHelper_eq_none_iff (kind : ObjKind) (name : String) :
    ∀ o : QObj, findChildHelper kind name o = none ↔
      ∀ d ∈ descendants o, d.isMatch kind name = false
  | .mk _ _ _ cs => by
    have ih := findInChildren_eq_none_iff kind name cs
    rw [descendants, ← ih, findChildHelper]
    cases hf : cs.find? (QObj.isMatch kind name) <;> simp
theorem findInChildren_eq_none_iff (kind : ObjKind) (name : String) :
    ∀ cs : List QObj,
      (cs.find? (QObj.isMatch kind name) = none ∧ findInChildren kind name cs = none) ↔
        ∀ d ∈ descendantsList cs, d.isMatch kind name = false
  | [] => by simp [findInChildren, descendantsList]
  | c :: cs => by
    have ih₁ := findChildHelper_eq_none_iff kind name c
    have ih₂ := findInChildren_eq_none_iff kind name cs
    rw [descendantsList, findInChildren]
    simp only [List.mem_cons, List.mem_append, forall_eq_or_imp, or_imp, forall_and]
    rw [← ih₁, ← ih₂]
    cases hc : QObj.isMatch kind name c <;>
      cases hh : findChildHelper kind name c <;> simp [List.find?, hc]
end

theorem mem_descendantsList_of_mem :
    ∀ (cs : List QObj) (c : QObj), c ∈ cs → c ∈ descendantsList cs
  | [], _, h => by simp at h
  | a :: as, c, h => by
    rw [descendantsList]
    rcases List.mem_cons.mp h with h | h
    · exact h ▸ List.mem_cons_self _ _
    · exact List.mem_cons_of_mem _
        (List.mem_append_right _ (mem_descendantsList_of_mem as c h))

mutual
theorem findChildHelper_sound (kind : ObjKind) (name : String) :
    ∀ (o r : QObj), findChildHelper kind name o = some r →
      r ∈ descendants o ∧ r.isMatch kind name = true
  | .mk _ _ _ cs, r, h => by
    rw [findChildHelper] at h
    rw [descendants]
    cases hf : cs.find? (QObj.isMatch kind name) with
    | some c =>
      rw [hf] at h
      simp only [Option.some.injEq] at h
      subst h
      refine ⟨?_, List.find?_some hf⟩
      exact mem_descendantsList_of_mem cs c (List.mem_of_find?_eq_some hf)
    | none =>
      rw [hf] at h
      exact findInChildren_sound kind name cs r h
theorem findInChildren_sound (kind : ObjKind) (name : String) :
    ∀ (cs : List QObj) (r : QObj), findInChildren kind name cs = some r →
      r ∈ descendantsList cs ∧ r.isMatch kind name = true
  | [], r, h => by simp [findInChildren] at h
  | c :: cs, r, h => by
    rw [findInChildren] at h
    rw [descendantsList]
    cases hh : findChildHelper kind name c with
    | some o =>
      rw [hh] at h
      simp only [Option.some.injEq] at h
      subst h
      have := findChildHelper_sound kind name c o hh
      exact ⟨List.mem_cons_of_mem _ (List.mem_append_left _ this.1), this.2⟩
    | none =>
      rw [hh] at h
      have := findInChildren_sound kind name cs r h
      exact ⟨List.mem_cons_of_mem _ (List.mem_append_right _ this.1), this.2⟩
end


theorem findChildHelper_of_hasDescendant (kind : ObjKind) (name : String) (h : QObj)
    (hd : HasDescendant kind name h) : ∃ lay, findChildHelper kind name h = some lay := by
  cases hf : findChildHelper kind name h with
  | some lay => exact ⟨lay, rfl⟩
  | none =>
    obtain ⟨d, hmem, hmatch⟩ := hd
    have := (findChildHelper_eq_none_iff kind name h).mp hf d hmem
    rw [hmatch] at this
    exact absurd this (by decide)

theorem findChildHelper_of_not_hasDescendant (kind : ObjKind) (name : String) (h : QObj)
    (hd : ¬ HasDescendant kind name h) : findChildHelper kind name h = none := by
  rw [findChildHelper_eq_none_iff]
  intro d hmem
  cases hm : d.isMatch kind name
  · rfl
  · exact absurd ⟨d, hmem, hm⟩ hd


/-! ## The composing phase -/

theorem MainWindow_done (env : Env) (self : Nat) (parent : Option Nat) (hw lay : QObj)
    (hh : (loadResources env self parent).header = some hw)
    (hl : findChildHelper ObjKind.vboxLayout "mainLayout" hw = some lay) :
    MainWindow env self parent = Outcome.done
      (addTab (loadResources env self parent).settings "Settings"
        (addWidget lay (loadResources env self parent).g
          { file := { fileName := ":/ui/gist.ui", isOpen := false }
            tabs := env.setupUiTabs ++ [(hw.id, "Gist")]
            items := env.layoutItems
            warnings := []
            trace := loadPhaseOps self parent ++
              [Op.addTab (some hw.id) "Gist",
               Op.findChild hw.id ObjKind.vboxLayout "mainLayout"] })) := by
  simp [MainWindow, composeTabs, hh, hl, addTab, loadResources_st]

theorem MainWindow_no_layout (env : Env) (self : Nat) (parent : Option Nat) (hw : QObj)
    (hh : (loadResources env self parent).header = some hw)
    (hl : findChildHelper ObjKind.vboxLayout "mainLayout" hw = none) :
    MainWindow env self parent = Outcome.crash CrashSite.layoutAddWidget
      { file := { fileName := ":/ui/gist.ui", isOpen := false }
        tabs := env.setupUiTabs ++ [(hw.id, "Gist")]
        items := env.layoutItems
        warnings := []
        trace := loadPhaseOps self parent ++
          [Op.addTab (some hw.id) "Gist",
           Op.findChild hw.id ObjKind.vboxLayout "mainLayout"] } := by
  simp [MainWindow, composeTabs, hh, hl, addTab, loadResources_st]

theorem MainWindow_no_header (env : Env) (self : Nat) (parent : Option Nat)
    (hh : (loadResources env self parent).header = none) :
    MainWindow env self parent = Outcome.crash CrashSite.headerFindChild
      { file := { fileName := ":/ui/gist.ui", isOpen := false }
        tabs := env.setupUiTabs
        items := env.layoutItems
        warnings := []
        trace := loadPhaseOps self parent ++ [Op.addTab none "Gist"] } := by
  simp [MainWindow, composeTabs, hh, addTab, loadResources_st]

theorem MainWindow_trace (env : Env) (self : Nat) (parent : Option Nat) :
    (MainWindow env self parent).state.trace =
      loadPhaseOps self parent ++
        composeOps (loadResources env self parent).settings
          (loadResources env self parent).header (loadResources env self parent).g := by
  cases hh : (loadResources env self parent).header with
  | none =>
    rw [MainWindow_no_header env self parent hh]
    simp [Outcome.state, composeOps]
  | some hw =>
    cases hl : findChildHelper ObjKind.vboxLayout "mainLayout" hw with
    | none =>
      rw [MainWindow_no_layout env self parent hw hh hl]
      simp [Outcome.state, composeOps, hl]
    | some lay =>
      rw [MainWindow_done env self parent hw lay hh hl]
      cases (loadResources env self parent).settings <;>
        cases (loadResources env self parent).g <;>
          simp [Outcome.state, composeOps, hl, addTab, addWidget]

theorem MainWindow_file (env : Env) (self : Nat) (parent : Option Nat) :
    (MainWindow env self parent).state.file = { fileName := ":/ui/gist.ui", isOpen := false } ∧
      (MainWindow env self parent).state.warnings = [] := by
  cases hh : (loadResources env self parent).header with
  | none =>
    rw [MainWindow_no_header env self parent hh]
    simp [Outcome.state]
  | some hw =>
    cases hl : findChildHelper ObjKind.vboxLayout "mainLayout" hw with
    | none =>
      rw [MainWindow_no_layout env self parent hw hh hl]
      simp [Outcome.state]
    | some lay =>
      rw [MainWindow_done env self parent hw lay hh hl]
      cases (loadResources env self parent).settings <;>
        cases (loadResources env self parent).g <;>
          simp [Outcome.state, addTab, addWidget]

theorem loadsOf_composeOps (settings header g : Option QObj) :
    loadsOf (composeOps settings header g) = [] ∧
      opensOf (composeOps settings header g) = [] ∧
      ∀ b, balanced b (composeOps settings header g) = !b := by
  cases header with
  | none => simp [composeOps, loadsOf, opensOf, balanced]
  | some h =>
    cases hl : findChildHelper ObjKind.vboxLayout "mainLayout" h <;>
      simp [composeOps, hl, loadsOf, opensOf, balanced]

theorem setFileName_warnings (name : String) (s : State) :
    (setFileName name s).warnings = s.warnings ↔ s.file.isOpen = false := by
  cases h : s.file.isOpen <;> simp [setFileName, h]

theorem fileOpen_warnings (env : Env) (mode : OpenMode) (s : State) :
    (fileOpen env mode s).2.warnings = s.warnings ↔ s.file.isOpen = false := by
  cases h : s.file.isOpen <;> simp [fileOpen, h]

theorem loads_of_run (env : Env) (self : Nat) (parent : Option Nat) :
    loadsOf (MainWindow env self parent).state.trace =
      [(":/ui/settings.ui", self), (":/ui/tabheader.ui", self), (":/ui/gist.ui", self)] := by
  rw [MainWindow_trace]
  simp [loadPhaseOps, loadsOf, (loadsOf_composeOps _ _ _).1]

/-! ## The claims -/

/-- C1: when the tab widget is empty after `setupUi`, the three loads return a widget and
the lookup of the layout succeeds, the constructor completes having called `addTab`
exactly twice, and the tab widget then holds exactly two tabs. -/
theorem tab_count_is_two (env : Env) (self : Nat) (parent : Option Nat)
    (sw hw gw lay : QObj)
    (hempty : (setupUi env self parent).tabs = [])
    (hs : (loadResources env self parent).settings = some sw)
    (hh : (loadResources env self parent).header = some hw)
    (hg : (loadResources env self parent).g = some gw)
    (hl : findChildHelper ObjKind.vboxLayout "mainLayout" hw = some lay) :
    ∃ s, MainWindow env self parent = Outcome.done s ∧
      addTabsOf s.trace = [(some hw.id, "Gist"), (some sw.id, "Settings")] ∧
      (addTabsOf s.trace).length = 2 ∧
      s.tabs.length = 2 := by
  have hempty' : env.setupUiTabs = [] := hempty
  refine ⟨_, MainWindow_done env self parent hw lay hh hl, ?_⟩
  simp [hs, hg, addTab, addWidget, addTabsOf, loadPhaseOps, hempty']

theorem tab_count_is_two_witness :
    ∃ s, MainWindow sampleEnv 1 none = Outcome.done s ∧
      addTabsOf s.trace = [(some 20, "Gist"), (some 10, "Settings")] ∧
      (addTabsOf s.trace).length = 2 ∧
      s.tabs.length = 2 :=
  tab_count_is_two sampleEnv 1 none (.mk 10 .widget "Settings" []) sampleHeader
    (.mk 30 .widget "Gist" []) (.mk 21 .vboxLayout "mainLayout" []) rfl rfl rfl rfl rfl

/-- C2: when each of the three loads returns a widget and the loaded tabheader widget has
a `QVBoxLayout` descendant named `mainLayout`, the constructor runs to completion: it
executes all four statements of lines 28 to 31 and reaches neither null dereference. -/
theorem constructs_without_crash (env : Env) (self : Nat) (parent : Option Nat)
    (sw hw gw : QObj)
    (hs : (loadResources env self parent).settings = some sw)
    (hh : (loadResources env self parent).header = some hw)
    (hg : (loadResources env self parent).g = some gw)
    (hd : HasDescendant ObjKind.vboxLayout "mainLayout" hw) :
    (∃ (s : State) (lay : QObj), MainWindow env self parent = Outcome.done s ∧
      s.trace = loadPhaseOps self parent ++
        [Op.addTab (some hw.id) "Gist",
         Op.findChild hw.id ObjKind.vboxLayout "mainLayout",
         Op.addWidget lay.id (some gw.id),
         Op.addTab (some sw.id) "Settings"]) ∧
      ∀ site s, MainWindow env self parent ≠ Outcome.crash site s := by
  obtain ⟨lay, hl⟩ := findChildHelper_of_hasDescendant _ _ hw hd
  have hdone := MainWindow_done env self parent hw lay hh hl
  refine ⟨⟨_, lay, hdone, ?_⟩, ?_⟩
  · simp [hs, hg, addTab, addWidget]
  · intro site s hc
    rw [hdone] at hc
    exact Outcome.noConfusion hc

theorem constructs_without_crash_witness :
    (∃ (s : State) (lay : QObj), MainWindow sampleEnv 1 none = Outcome.done s ∧
      s.trace = loadPhaseOps 1 none ++
        [Op.addTab (some 20) "Gist",
         Op.findChild 20 ObjKind.vboxLayout "mainLayout",
         Op.addWidget lay.id (some 30),
         Op.addTab (some 10) "Settings"]) ∧
      ∀ site s, MainWindow sampleEnv 1 none ≠ Outcome.crash site s :=
  constructs_without_crash sampleEnv 1 none (.mk 10 .widget "Settings" []) sampleHeader
    (.mk 30 .widget "Gist" []) rfl rfl rfl (by decide)

/-- C3: in every run the constructor loads exactly the three resources
`:/ui/settings.ui`, `:/ui/tabheader.ui`, `:/ui/gist.ui`, in this order, each one opened
read-only on the one file object, loaded with the window itself as parent and closed
before the next; no other resource is opened or loaded. -/
theorem loads_three_resources_in_order (env : Env) (self : Nat) (parent : Option Nat) :
    (loadResources env self parent).st.trace =
        [ Op.qMainWindow parent, Op.setupUi self, Op.newLoader,
          Op.newFile ":/ui/settings.ui",
          Op.fileOpen ":/ui/settings.ui" OpenMode.readOnly,
          Op.load ":/ui/settings.ui" self,
          Op.fileClose ":/ui/settings.ui",
          Op.setFileName ":/ui/tabheader.ui",
          Op.fileOpen ":/ui/tabheader.ui" OpenMode.readOnly,
          Op.load ":/ui/tabheader.ui" self,
          Op.fileClose ":/ui/tabheader.ui",
          Op.setFileName ":/ui/gist.ui",
          Op.fileOpen ":/ui/gist.ui" OpenMode.readOnly,
          Op.load ":/ui/gist.ui" self,
          Op.fileClose ":/ui/gist.ui" ] ∧
      loadsOf (MainWindow env self parent).state.trace =
        [(":/ui/settings.ui", self), (":/ui/tabheader.ui", self), (":/ui/gist.ui", self)] ∧
      opensOf (MainWindow env self parent).state.trace =
        [(":/ui/settings.ui", OpenMode.readOnly), (":/ui/tabheader.ui", OpenMode.readOnly),
         (":/ui/gist.ui", OpenMode.readOnly)] := by
  have hc := loadsOf_composeOps (loadResources env self parent).settings
    (loadResources env self parent).header (loadResources env self parent).g
  refine ⟨by rw [loadResources_st]; rfl, ?_, ?_⟩
  · rw [MainWindow_trace]
    simp [loadPhaseOps, loadsOf, hc.1]
  · rw [MainWindow_trace]
    simp [loadPhaseOps, opensOf, hc.2.1]

/-- C4: no result of `open` is checked.  Whatever the three `open` calls answer, lines 6
to 26 issue the same calls (for each resource: open, load on the file, close); and two
runs that differ only in the answers of `open` issue the same calls throughout whenever
the three loads return the same widgets. -/
theorem open_results_are_unchecked (env : Env) (ok : String → OpenMode → Bool)
    (self : Nat) (parent : Option Nat) :
    (loadResources { env with openOk := ok } self parent).st.trace =
        (loadResources env self parent).st.trace ∧
      (loadResources { env with openOk := ok } self parent).st.trace =
        loadPhaseOps self parent ∧
      ((loadResources { env with openOk := ok } self parent).settings =
          (loadResources env self parent).settings →
        (loadResources { env with openOk := ok } self parent).header =
          (loadResources env self parent).header →
        (loadResources { env with openOk := ok } self parent).g =
          (loadResources env self parent).g →
        (MainWindow { env with openOk := ok } self parent).state.trace =
          (MainWindow env self parent).state.trace) := by
  refine ⟨by rw [loadResources_st, loadResources_st], by rw [loadResources_st], ?_⟩
  intro hs hh hg
  rw [MainWindow_trace, MainWindow_trace, hs, hh, hg]

theorem open_results_are_unchecked_witness :
    (loadResources (lenientEnv fun _ _ => false) 1 none).st.trace =
        (loadResources (lenientEnv fun _ _ => true) 1 none).st.trace ∧
      (loadResources (lenientEnv fun _ _ => false) 1 none).st.trace = loadPhaseOps 1 none ∧
      (MainWindow (lenientEnv fun _ _ => false) 1 none).state.trace =
        (MainWindow (lenientEnv fun _ _ => true) 1 none).state.trace :=
  ⟨(open_results_are_unchecked (lenientEnv fun _ _ => true) (fun _ _ => false) 1 none).1,
   (open_results_are_unchecked (lenientEnv fun _ _ => true) (fun _ _ => false) 1 none).2.1,
   (open_results_are_unchecked (lenientEnv fun _ _ => true) (fun _ _ => false) 1 none).2.2
     rfl rfl rfl⟩

/-- C5: when the header is loaded, the recursive lookup of a `QVBoxLayout` named
`mainLayout` under it returns a layout and the gist widget is loaded (a distinct object
from the header and the settings widget), the constructor appends the gist widget as the
last item of exactly the layout found, changes no other layout, and passes the gist
widget to no `addTab` call. -/
theorem gist_attached_to_found_layout (env : Env) (self : Nat) (parent : Option Nat)
    (hw gw lay : QObj)
    (hh : (loadResources env self parent).header = some hw)
    (hg : (loadResources env self parent).g = some gw)
    (hl : findChildHelper ObjKind.vboxLayout "mainLayout" hw = some lay)
    (hne₁ : gw.id ≠ hw.id)
    (hne₂ : ∀ sw, (loadResources env self parent).settings = some sw → gw.id ≠ sw.id) :
    lay ∈ descendants hw ∧ lay.kind = ObjKind.vboxLayout ∧ lay.objectName = "mainLayout" ∧
      ∃ s, MainWindow env self parent = Outcome.done s ∧
        s.items lay.id = env.layoutItems lay.id ++ [gw.id] ∧
        (∀ k, k ≠ lay.id → s.items k = env.layoutItems k) ∧
        (∀ label, (some gw.id, label) ∉ addTabsOf s.trace) ∧
        addTabsOf s.trace = [(some hw.id, "Gist"),
          ((loadResources env self parent).settings.map QObj.id, "Settings")] ∧
        s.tabs = env.setupUiTabs ++ (hw.id, "Gist") ::
          ((loadResources env self parent).settings.map fun w => (w.id, "Settings")).toList := by
  have hsound := findChildHelper_sound _ _ hw lay hl
  have hm : lay.kind = ObjKind.vboxLayout ∧ lay.objectName = "mainLayout" := by
    simpa [QObj.isMatch] using hsound.2
  refine ⟨hsound.1, hm.1, hm.2, _, MainWindow_done env self parent hw lay hh hl, ?_⟩
  cases hs : (loadResources env self parent).settings with
  | none =>
    refine ⟨?_, ?_, ?_, ?_, ?_⟩
    · simp [hg, addTab, addWidget]
    · intro k hk
      simp [hg, addTab, addWidget, hk]
    · intro label
      simp [hg, addTab, addWidget, addTabsOf, loadPhaseOps]
      intro h
      exact absurd h hne₁
    · simp [hg, addTab, addWidget, addTabsOf, loadPhaseOps]
    · simp [hg, addTab, addWidget]
  | some sw =>
    have hne := hne₂ sw hs
    refine ⟨?_, ?_, ?_, ?_, ?_⟩
    · simp [hg, addTab, addWidget]
    · intro k hk
      simp [hg, addTab, addWidget, hk]
    · intro label
      simp [hg, addTab, addWidget, addTabsOf, loadPhaseOps]
      exact ⟨fun h => absurd h hne₁, fun h => absurd h hne⟩
    · simp [hg, addTab, addWidget, addTabsOf, loadPhaseOps]
    · simp [hg, addTab, addWidget]

theorem gist_attached_to_found_layout_witness :
    (QObj.mk 21 .vboxLayout "mainLayout" []) ∈ descendants sampleHeader ∧
      ∃ s, MainWindow sampleEnv 1 none = Outcome.done s ∧
        s.items 21 = [22, 30] ∧
        (∀ k, k ≠ 21 → s.items k = sampleEnv.layoutItems k) ∧
        (∀ label, (some 30, label) ∉ addTabsOf s.trace) ∧
        addTabsOf s.trace = [(some 20, "Gist"), (some 10, "Settings")] ∧
        s.tabs = [(20, "Gist"), (10, "Settings")] :=
  have h := gist_attached_to_found_layout sampleEnv 1 none sampleHeader
    (.mk 30 .widget "Gist" []) (.mk 21 .vboxLayout "mainLayout" []) rfl rfl rfl
    (by decide) (fun sw hsw => by
      have : sw = .mk 10 .widget "Settings" [] := (Option.some.inj hsw).symm
      subst this
      decide)
  ⟨h.1, h.2.2.2⟩

/-- C6: on a tab widget that is empty after `setupUi`, a completed run leaves the
tabheader widget at index 0 with label "Gist" and the settings widget at index 1 with
label "Settings", although the settings resource is loaded first and the tabheader
resource second. -/
theorem tab_order_differs_from_load_order (env : Env) (self : Nat) (parent : Option Nat)
    (sw hw lay : QObj)
    (hempty : (setupUi env self parent).tabs = [])
    (hs : (loadResources env self parent).settings = some sw)
    (hh : (loadResources env self parent).header = some hw)
    (hl : findChildHelper ObjKind.vboxLayout "mainLayout" hw = some lay) :
    env.loadUi ":/ui/settings.ui" (env.openOk ":/ui/settings.ui" OpenMode.readOnly) = some sw ∧
      env.loadUi ":/ui/tabheader.ui" (env.openOk ":/ui/tabheader.ui" OpenMode.readOnly)
        = some hw ∧
      ∃ s, MainWindow env self parent = Outcome.done s ∧
        s.tabs = [(hw.id, "Gist"), (sw.id, "Settings")] ∧
        s.tabs[0]? = some (hw.id, "Gist") ∧
        s.tabs[1]? = some (sw.id, "Settings") ∧
        (loadsOf s.trace)[0]? = some (":/ui/settings.ui", self) ∧
        (loadsOf s.trace)[1]? = some (":/ui/tabheader.ui", self) := by
  have hempty' : env.setupUiTabs = [] := hempty
  have hloads := (loads_of_run env self parent)
  rw [MainWindow_done env self parent hw lay hh hl] at hloads
  refine ⟨by rw [← loadResources_settings env self parent, hs],
    by rw [← loadResources_header env self parent, hh],
    _, MainWindow_done env self parent hw lay hh hl, ?_⟩
  simp only [Outcome.state] at hloads
  rw [hloads]
  cases (loadResources env self parent).g <;> simp [hs, addTab, addWidget, hempty']

theorem tab_order_differs_from_load_order_witness :
    ∃ s, MainWindow sampleEnv 1 none = Outcome.done s ∧
      s.tabs = [(20, "Gist"), (10, "Settings")] ∧
      s.tabs[0]? = some (20, "Gist") ∧
      s.tabs[1]? = some (10, "Settings") ∧
      (loadsOf s.trace)[0]? = some (":/ui/settings.ui", 1) ∧
      (loadsOf s.trace)[1]? = some (":/ui/tabheader.ui", 1) :=
  (tab_order_differs_from_load_order sampleEnv 1 none (.mk 10 .widget "Settings" [])
    sampleHeader (.mk 21 .vboxLayout "mainLayout" []) rfl rfl rfl rfl).2.2

/-- C7 as stated fails: on a tab widget that holds one tab after `setupUi`, a loaded
tabheader widget with no `QVBoxLayout` descendant named `mainLayout` makes the run fail at
`layout->addWidget` in a state with two tabs, not one. -/
theorem lookup_failure_tab_count_counterexample :
    (loadResources preTabEnv 1 none).header = some headerNoLayout ∧
      ¬ HasDescendant ObjKind.vboxLayout "mainLayout" headerNoLayout ∧
      (∃ s, MainWindow preTabEnv 1 none = Outcome.crash CrashSite.layoutAddWidget s ∧
        s.tabs = [(5, "Pre"), (20, "Gist")] ∧
        s.tabs.length = 2) ∧
      (MainWindow preTabEnv 1 none).state.tabs.length ≠ 1 := by
  refine ⟨rfl, by decide, ⟨_, MainWindow_no_layout preTabEnv 1 none headerNoLayout rfl rfl,
    rfl, rfl⟩, by decide⟩

/-- C7, amended: the result of the child lookup is not checked.  For every loaded
tabheader widget with no `QVBoxLayout` descendant named `mainLayout`, the run fails at
`layout->addWidget` after the "Gist" tab was added and before the "Settings" tab: the
state at the failure holds the tabs present after `setupUi` followed by the "Gist" tab,
exactly one more than after `setupUi` (so exactly one when `setupUi` left none), and the
last call issued is the lookup. -/
theorem lookup_failure_adds_gist_tab_only (env : Env) (self : Nat) (parent : Option Nat)
    (hw : QObj)
    (hh : (loadResources env self parent).header = some hw)
    (hd : ¬ HasDescendant ObjKind.vboxLayout "mainLayout" hw) :
    ∃ s, MainWindow env self parent = Outcome.crash CrashSite.layoutAddWidget s ∧
      s.tabs = (setupUi env self parent).tabs ++ [(hw.id, "Gist")] ∧
      s.tabs.length = (setupUi env self parent).tabs.length + 1 ∧
      ((setupUi env self parent).tabs = [] → s.tabs = [(hw.id, "Gist")] ∧ s.tabs.length = 1) ∧
      s.tabs ≠ (setupUi env self parent).tabs ∧
      addTabsOf s.trace = [(some hw.id, "Gist")] ∧
      s.trace.getLast? = some (Op.findChild hw.id ObjKind.vboxLayout "mainLayout") := by
  have hl := findChildHelper_of_not_hasDescendant _ _ hw hd
  refine ⟨_, MainWindow_no_layout env self parent hw hh hl, ?_, ?_, ?_, ?_, ?_, ?_⟩
  · simp [setupUi]
  · simp [setupUi]
  · intro hempty
    have hempty' : env.setupUiTabs = [] := hempty
    simp [hempty']
  · simp [setupUi]
  · simp [addTabsOf, loadPhaseOps]
  · simp [loadPhaseOps]

theorem lookup_failure_adds_gist_tab_only_witness :
    ∃ s, MainWindow noLayoutEnv 1 none = Outcome.crash CrashSite.layoutAddWidget s ∧
      s.tabs = [(20, "Gist")] ∧
      s.tabs.length = 1 ∧
      s.tabs ≠ (setupUi noLayoutEnv 1 none).tabs ∧
      addTabsOf s.trace = [(some 20, "Gist")] ∧
      s.trace.getLast? = some (Op.findChild 20 ObjKind.vboxLayout "mainLayout") :=
  have ⟨s, h₁, h₂, h₃, _, h₅, h₆, h₇⟩ :=
    lookup_failure_adds_gist_tab_only noLayoutEnv 1 none headerNoLayout rfl (by decide)
  ⟨s, h₁, h₂, h₃, h₅, h₆, h₇⟩

/-- C8: the one file object is reused with balanced open and close.  In every run the
calls on the file follow the discipline `balanced` (each `open` is followed by exactly one
`close` before the next `setFileName` or `open`), no `setFileName` and no `open` is ever
issued on an open file (no misuse warning is recorded), and the file is closed after
line 26 and in the state the run ends in. -/
theorem file_reuse_is_balanced (env : Env) (self : Nat) (parent : Option Nat) :
    balanced false (loadResources env self parent).st.trace = true ∧
      (loadResources env self parent).st.warnings = [] ∧
      (loadResources env self parent).st.file.isOpen = false ∧
      balanced false (MainWindow env self parent).state.trace = true ∧
      (MainWindow env self parent).state.warnings = [] ∧
      (MainWindow env self parent).state.file.isOpen = false := by
  have hc := loadsOf_composeOps (loadResources env self parent).settings
    (loadResources env self parent).header (loadResources env self parent).g
  have hf := MainWindow_file env self parent
  refine ⟨?_, ?_, ?_, ?_, hf.2, by rw [hf.1]⟩
  · rw [loadResources_st]
    simp [loadPhaseOps, balanced]
  · rw [loadResources_st]
  · rw [loadResources_st]
  · rw [MainWindow_trace]
    simp [loadPhaseOps, balanced, hc.2.2]

end GistFlow
